import Mathlib

/-!
# Verification of the line-api webhook examples and library surface

A shallow embedding of the `lumduan/line-api` repository: the webhook
signature-verification routine (HMAC-SHA256 over the raw request body),
the webhook handler's dispatch mechanism, the two FastAPI example
endpoints, the example's `process_user_message` command processor and its
`user_messages` store, the message builders, and the pass-through entity
records.  Machine words are `Nat` reduced modulo `2 ^ 32`; byte strings
are `List Nat`; Python strings are Lean `String`s manipulated through
their character lists.
-/

/-! ## SHA-256 and HMAC-SHA256 over byte lists -/

/-- Truncate to a 32-bit word. -/
def w32 (n : Nat) : Nat := n % 4294967296

/-- Right rotation of a 32-bit word. -/
def rotr (n x : Nat) : Nat := w32 ((x >>> n) ||| (x <<< (32 - n)))

/-- Bitwise complement within 32 bits. -/
def compl32 (x : Nat) : Nat := x ^^^ 4294967295

def chF (x y z : Nat) : Nat := (x &&& y) ^^^ (compl32 x &&& z)

def majF (x y z : Nat) : Nat := (x &&& y) ^^^ (x &&& z) ^^^ (y &&& z)

def bigSigma0 (x : Nat) : Nat := rotr 2 x ^^^ rotr 13 x ^^^ rotr 22 x

def bigSigma1 (x : Nat) : Nat := rotr 6 x ^^^ rotr 11 x ^^^ rotr 25 x

def smallSigma0 (x : Nat) : Nat := rotr 7 x ^^^ rotr 18 x ^^^ (x >>> 3)

def smallSigma1 (x : Nat) : Nat := rotr 17 x ^^^ rotr 19 x ^^^ (x >>> 10)

/-- The SHA-256 round constants. -/
def K256 : List Nat :=
  [1116352408, 1899447441, 3049323471, 3921009573, 961987163, 1508970993,
   2453635748, 2870763221, 3624381080, 310598401, 607225278, 1426881987,
   1925078388, 2162078206, 2614888103, 3248222580, 3835390401, 4022224774,
   264347078, 604807628, 770255983, 1249150122, 1555081692, 1996064986,
   2554220882, 2821834349, 2952996808, 3210313671, 3336571891, 3584528711,
   113926993, 338241895, 666307205, 773529912, 1294757372, 1396182291,
   1695183700, 1986661051, 2177026350, 2456956037, 2730485921, 2820302411,
   3259730800, 3345764771, 3516065817, 3600352804, 4094571909, 275423344,
   430227734, 506948616, 659060556, 883997877, 958139571, 1322822218,
   1537002063, 1747873779, 1955562222, 2024104815, 2227730452, 2361852424,
   2428436474, 2756734187, 3204031479, 3329325298]

/-- The SHA-256 initial hash state. -/
def H256 : List Nat :=
  [1779033703, 3144134277, 1013904242, 2773480762,
   1359893119, 2600822924, 528734635, 1541459225]

/-- `k` bytes of `n`, big-endian. -/
def beBytes : Nat → Nat → List Nat
  | 0, _ => []
  | k + 1, n => beBytes k (n >>> 8) ++ [n % 256]

/-- SHA-256 padding: append `0x80`, zero bytes up to 56 mod 64, and the
bit length as 8 big-endian bytes. -/
def padMsg (msg : List Nat) : List Nat :=
  let z := (120 - ((msg.length + 1) % 64)) % 64
  msg ++ [128] ++ List.replicate z 0 ++ beBytes 8 (8 * msg.length)

/-- Big-endian 32-bit words from a byte list. -/
def bytesToWords : List Nat → List Nat
  | a :: b :: c :: d :: rest => (((a * 256 + b) * 256 + c) * 256 + d) :: bytesToWords rest
  | _ => []

/-- Extend the 16-word message schedule by `fuel` further words. -/
def extendSchedule : Nat → List Nat → List Nat
  | 0, ws => ws
  | fuel + 1, ws =>
    let n := ws.length
    let w := w32 (smallSigma1 (ws.getD (n - 2) 0) + ws.getD (n - 7) 0 +
      smallSigma0 (ws.getD (n - 15) 0) + ws.getD (n - 16) 0)
    extendSchedule fuel (ws ++ [w])

/-- One SHA-256 round on the eight-word working state. -/
def roundStep (st : List Nat) (kw : Nat × Nat) : List Nat :=
  match st with
  | [a, b, c, d, e, f, g, h] =>
    let t1 := w32 (h + bigSigma1 e + chF e f g + kw.1 + kw.2)
    let t2 := w32 (bigSigma0 a + majF a b c)
    [w32 (t1 + t2), a, b, c, w32 (d + t1), e, f, g]
  | other => other

/-- Compress one 64-byte block into the hash state. -/
def compressBlock (hs : List Nat) (block : List Nat) : List Nat :=
  let ws := extendSchedule 48 (bytesToWords block)
  let st := (K256.zip ws).foldl roundStep hs
  (hs.zip st).map (fun p => w32 (p.1 + p.2))

/-- Split a byte list into `n` blocks of 64 bytes. -/
def splitBlocks : Nat → List Nat → List (List Nat)
  | 0, _ => []
  | n + 1, l => l.take 64 :: splitBlocks n (l.drop 64)

/-- SHA-256 of a byte list, as a 32-byte digest. -/
def sha256 (msg : List Nat) : List Nat :=
  let padded := padMsg msg
  let hs := (splitBlocks (padded.length / 64) padded).foldl compressBlock H256
  hs.foldr (fun h acc => beBytes 4 h ++ acc) []

/-- HMAC-SHA256 with a 64-byte block size. -/
def hmacSHA256 (key msg : List Nat) : List Nat :=
  let k0 := if 64 < key.length then sha256 key else key
  let kp := k0 ++ List.replicate (64 - k0.length) 0
  sha256 ((kp.map (fun b => b ^^^ 92)) ++ sha256 ((kp.map (fun b => b ^^^ 54)) ++ msg))

/-- Modelled from the spec: the library's webhook signature verification
(`line_api`'s webhook handler, whose source is not in the repository
snapshot) computes HMAC-SHA256 over the raw request body with the shared
channel secret and compares it to the `X-Line-Signature` header value,
accepting exactly when they match. -/
def verify_webhook_signature (channel_secret body signature : List Nat) : Bool :=
  hmacSHA256 channel_secret body == signature

/-! ## Python string primitives (ASCII semantics) -/

def lowerChar (c : Char) : Char :=
  if 'A' ≤ c ∧ c ≤ 'Z' then Char.ofNat (c.toNat + 32) else c

/-- Python `str.lower()` on ASCII text. -/
def pyLower (s : String) : String := ⟨s.data.map lowerChar⟩

/-- The characters Python `str.strip()` removes. -/
def isPySpace (c : Char) : Bool :=
  c == ' ' || c == '\t' || c == '\n' || c == '\r' || c == Char.ofNat 11 || c == Char.ofNat 12

/-- Python `str.strip()`. -/
def pyStrip (s : String) : String :=
  ⟨(s.data.dropWhile isPySpace).reverse.dropWhile isPySpace |>.reverse⟩

/-- Python slicing `s[n:]`. -/
def pyDrop (n : Nat) (s : String) : String := ⟨s.data.drop n⟩

/-- Python slicing `s[::-1]`. -/
def pyReverse (s : String) : String := ⟨s.data.reverse⟩

/-- Python `len` on a string. -/
def pyLen (s : String) : Nat := s.data.length

/-- Python `s.startswith(p)`. -/
def strStartsWith (p s : String) : Bool := p.data.isPrefixOf s.data

def digitChar (n : Nat) : Char := Char.ofNat (48 + n)

def natDigits : Nat → Nat → List Char
  | 0, _ => []
  | fuel + 1, n => if n < 10 then [digitChar n] else natDigits fuel (n / 10) ++ [digitChar (n % 10)]

/-- Decimal rendering of a `Nat`, as Python `str(n)`. -/
def natToStr (n : Nat) : String := ⟨natDigits (n + 1) n⟩

def countWordsAux : List Char → Bool → Nat
  | [], _ => 0
  | c :: cs, inWord =>
    if isPySpace c then countWordsAux cs false
    else (if inWord then 0 else 1) + countWordsAux cs true

/-- Python `len(s.split())`: number of maximal non-whitespace runs. -/
def pyWordCount (s : String) : Nat := countWordsAux s.data false

/-! ## The example's `user_messages` store -/

/-- The module-level `user_messages` dict of
`webhook_text_message_example.py`, as an insertion-ordered association
list (Python dicts preserve insertion order). -/
abbrev Store := List (String × List String)

def dictGet : Store → String → Option (List String)
  | [], _ => none
  | (k, v) :: rest, u => if k = u then some v else dictGet rest u

/-- Python `u in d`. -/
def dictContains (st : Store) (u : String) : Bool := (dictGet st u).isSome

/-- Python `d[u] = v`: overwrite in place, or append a new key at the end. -/
def dictSet : Store → String → List String → Store
  | [], u, v => [(u, v)]
  | (k, w) :: rest, u, v => if k = u then (k, v) :: rest else (k, w) :: dictSet rest u v

def dictGetD (st : Store) (u : String) : List String := (dictGet st u).getD []

/-- Python `l[-n:]`. -/
def lastN (n : Nat) (l : List String) : List String := l.drop (l.length - n)

/-! ## The example's message processor -/

/-- `process_user_message` of `webhook_text_message_example.py` (lines
83-145): an if/elif chain over the lowercased, stripped text; the
`history` branch reads the sender's store entry, the `clear` branch
empties it when present.  Returns the reply and the resulting store. -/
def process_user_message (user_text user_id : String) (st : Store) : String × Store :=
  let text_lower := pyStrip (pyLower user_text)
  if text_lower ∈ ["hello", "hi", "hey", "good morning", "good evening"] then
    ("Hello! 👋 How can I help you today?", st)
  else if text_lower ∈ ["bye", "goodbye", "see you", "good night"] then
    ("Goodbye! Have a great day! 🌟", st)
  else if text_lower = "help" then
    ("🤖 Available commands:\n• hello - Greet the bot\n• help - Show this help message\n• status - Check bot status\n• history - Show your recent messages\n• clear - Clear your message history\n• bye - Say goodbye", st)
  else if text_lower = "status" then
    ("🟢 Bot is running perfectly!", st)
  else if text_lower = "history" then
    (if dictContains st user_id && !(dictGetD st user_id).isEmpty then
      "📝 Your recent messages:\n" ++
        String.intercalate "\n" ((lastN 5 (dictGetD st user_id)).map (fun m => "• " ++ m))
    else "📝 No message history found.", st)
  else if text_lower = "clear" then
    ("🗑️ Message history cleared!", if dictContains st user_id then dictSet st user_id [] else st)
  else if strStartsWith "echo " text_lower then
    ("🔄 You said: " ++ pyDrop 5 user_text, st)
  else if strStartsWith "reverse " text_lower then
    ("🔄 Reversed: " ++ pyReverse (pyDrop 8 user_text), st)
  else if strStartsWith "count " text_lower then
    ("📊 Characters: " ++ natToStr (pyLen (pyDrop 6 user_text)) ++
      ", Words: " ++ natToStr (pyWordCount (pyDrop 6 user_text)), st)
  else
    ("Thanks for your message: '" ++ user_text ++ "'\n💡 Try typing 'help' to see available commands!", st)

/-! ## Webhook events, the example handler, and dispatch -/

structure EventSource where
  userId : String
  deriving DecidableEq

structure EventMessage where
  type : String
  text : String
  deriving DecidableEq

structure LineMessageEvent where
  source : EventSource
  message : EventMessage
  replyToken : Option String
  deriving DecidableEq

structure ReplySend where
  token : String
  text : String
  deriving DecidableEq

/-- Python truthiness of an `Optional[str]`. -/
def optStrTruthy : Option String → Bool
  | none => false
  | some s => s != ""

/-- `handle_text_message` of `webhook_text_message_example.py` (lines
44-80): for a text message it appends the text to the sender's
`user_messages` entry (creating the entry when absent), computes the
reply with `process_user_message`, and sends it via the reply token when
one is truthy; a non-text message gets a fixed reply.  Returns the
resulting store and the replies sent. -/
def handle_text_message (st : Store) (e : LineMessageEvent) : Store × List ReplySend :=
  let uid := e.source.userId
  if e.message.type = "text" then
    let st0 := if dictContains st uid then st else dictSet st uid []
    let st1 := dictSet st0 uid (dictGetD st0 uid ++ [e.message.text])
    let pr := process_user_message e.message.text uid st1
    (pr.2, if optStrTruthy e.replyToken then [⟨e.replyToken.getD "", pr.1⟩] else [])
  else
    (st, if optStrTruthy e.replyToken then
      [⟨e.replyToken.getD "", "I can only handle text messages for now."⟩] else [])

structure WebhookPayload where
  events : List LineMessageEvent
  deriving DecidableEq

structure WebhookResponse where
  processed_events : Nat
  deriving DecidableEq

inductive WebhookError where
  | httpError (status : Nat) (detail : String)
  | unexpected (msg : String)
  deriving DecidableEq

/-- Modelled from the spec: the dispatch loop of the library's webhook
handler (source not in the snapshot) invokes the registered callback on
each parsed event in order, threading the store and collecting the
replies; the second component is the trace of events passed to the
callback, and a callback exception aborts the loop. -/
def dispatchEvents (cb : Store → LineMessageEvent → Except String (Store × List ReplySend)) :
    Store → List LineMessageEvent →
      Except String (Store × List LineMessageEvent × List ReplySend)
  | st, [] => Except.ok (st, [], [])
  | st, e :: es =>
    match cb st e with
    | Except.error m => Except.error m
    | Except.ok (st1, rs) =>
      match dispatchEvents cb st1 es with
      | Except.error m => Except.error m
      | Except.ok (st2, tr, rs2) => Except.ok (st2, e :: tr, rs ++ rs2)

/-- Modelled from the spec: `LineWebhookHandler.handle_webhook` (library
source not in the snapshot) verifies the `X-Line-Signature` header as
HMAC-SHA256 of the raw body under the channel secret — raising an HTTP
400 error when the header is missing or mismatched — then dispatches each
parsed event to the callback registered via the `message_handler`
decorator and reports the number of processed events; a callback
exception surfaces as an unexpected (non-HTTP) error. -/
def handle_webhook (secret : List Nat)
    (cb : Store → LineMessageEvent → Except String (Store × List ReplySend))
    (st : Store) (body : List Nat) (signature : Option (List Nat))
    (payload : WebhookPayload) :
    Except WebhookError (Store × List LineMessageEvent × List ReplySend × WebhookResponse) :=
  match signature with
  | none => Except.error (WebhookError.httpError 400 "Invalid signature")
  | some sig =>
    if verify_webhook_signature secret body sig then
      match dispatchEvents cb st payload.events with
      | Except.error m => Except.error (WebhookError.unexpected m)
      | Except.ok (st1, tr, rs) => Except.ok (st1, tr, rs, ⟨payload.events.length⟩)
    else Except.error (WebhookError.httpError 400 "Invalid signature")

/-- The events the dispatch loop passes to the callback in the run
`dispatchEvents` performs — the same recursion, recording each event at
the moment the callback is invoked on it; a callback error ends the
trace with the event whose invocation failed. -/
def dispatchEventsTrace
    (cb : Store → LineMessageEvent → Except String (Store × List ReplySend)) :
    Store → List LineMessageEvent → List LineMessageEvent
  | _, [] => []
  | st, e :: es =>
    match cb st e with
    | Except.error _ => [e]
    | Except.ok (st1, _) => e :: dispatchEventsTrace cb st1 es

/-- The events an inbound request causes the registered callback to be
invoked on, whether or not the run succeeds: none when the signature
header is missing or fails verification, otherwise the dispatch loop's
invocation trace. -/
def handleWebhookInvocations (secret : List Nat)
    (cb : Store → LineMessageEvent → Except String (Store × List ReplySend))
    (st : Store) (body : List Nat) (signature : Option (List Nat))
    (payload : WebhookPayload) : List LineMessageEvent :=
  match signature with
  | none => []
  | some sig =>
    if verify_webhook_signature secret body sig then
      dispatchEventsTrace cb st payload.events
    else []

/-- An inbound webhook HTTP request: raw body, optional
`X-Line-Signature` header, and the outcome of JSON-parsing the body
(`none` when the body is not parsable JSON). -/
structure WebhookRequest where
  body : List Nat
  signature : Option (List Nat)
  payload : Option WebhookPayload
  deriving DecidableEq

/-- The `/webhook` endpoint of `webhook_text_message_example.py` (lines
174-216): 400 when the signature header is missing, 400 when the JSON
payload does not parse, the status of an `HTTPException` re-raised from
`handle_webhook`, 500 on any other exception, 200 on success. -/
def webhook_endpoint_full (secret : List Nat)
    (cb : Store → LineMessageEvent → Except String (Store × List ReplySend))
    (st : Store) (req : WebhookRequest) : Nat :=
  match req.signature with
  | none => 400
  | some _ =>
    match req.payload with
    | none => 400
    | some payload =>
      match handle_webhook secret cb st req.body req.signature payload with
      | Except.ok _ => 200
      | Except.error (WebhookError.httpError s _) => s
      | Except.error (WebhookError.unexpected _) => 500

/-- The `/webhook` endpoint of `simple_text_webhook_example.py` (lines
58-74): it has no try/except, so a JSON parse failure in
`request.json()` propagates as an uncaught non-HTTP exception, which the
framework answers with 500; an HTTP error raised by `handle_webhook`
keeps its status; any other exception yields 500; success yields 200. -/
def webhook_endpoint_simple (secret : List Nat)
    (cb : Store → LineMessageEvent → Except String (Store × List ReplySend))
    (st : Store) (req : WebhookRequest) : Nat :=
  match req.payload with
  | none => 500
  | some payload =>
    match handle_webhook secret cb st req.body req.signature payload with
    | Except.ok _ => 200
    | Except.error (WebhookError.httpError s _) => s
    | Except.error (WebhookError.unexpected _) => 500

/-- `send_push_message` of `webhook_text_message_example.py` (lines
220-238): a single `push_message` attempt whose outcome is the
`pushOutcome` oracle; success returns the success body, failure raises
HTTP 500 carrying the error text.  The second component is the trace of
push attempts made. -/
def send_push_message (pushOutcome : Except String Unit) (user_id message : String) :
    Except (Nat × String) (String × String) × List (String × String) :=
  (match pushOutcome with
   | Except.ok _ => Except.ok ("success", "Push message sent")
   | Except.error e => Except.error (500, e),
   [(user_id, message)])
/-! ## Branch guards of the message processor -/

/-- The nine guard conditions of `process_user_message`'s if/elif chain,
in source order, evaluated on the lowercased stripped text; the tenth
branch (index 9) is the default reply. -/
def processGuards (user_text : String) : List Bool :=
  let text_lower := pyStrip (pyLower user_text)
  [decide (text_lower ∈ ["hello", "hi", "hey", "good morning", "good evening"]),
   decide (text_lower ∈ ["bye", "goodbye", "see you", "good night"]),
   decide (text_lower = "help"),
   decide (text_lower = "status"),
   decide (text_lower = "history"),
   decide (text_lower = "clear"),
   strStartsWith "echo " text_lower,
   strStartsWith "reverse " text_lower,
   strStartsWith "count " text_lower]

/-- Index of the first true guard; the list's length when none holds. -/
def firstTrue : List Bool → Nat
  | [] => 0
  | b :: bs => if b then 0 else firstTrue bs + 1

/-- Branch `i` is selected by an if/elif chain with guards `gs`: all
earlier guards are false, and guard `i` is true unless `i` is the
default branch `gs.length`. -/
def selectedAt (gs : List Bool) (i : Nat) : Prop :=
  i ≤ gs.length ∧ (∀ j, j < i → gs.getD j false = false) ∧
    (i < gs.length → gs.getD i false = true)

/-- A callback that ignores every event. -/
def trivialCb : Store → LineMessageEvent → Except String (Store × List ReplySend) :=
  fun st _ => Except.ok (st, [])

/-! ## JSON values, entity records and message builders -/

inductive Json where
  | str (s : String)
  | num (n : Int)
  | bool (b : Bool)
  | null
  | arr (elems : List Json)
  | obj (fields : List (String × Json))

/-- Modelled from the spec: the library's `TextMessage` entity (source
not in the snapshot) is a pass-through record of the vendor text-message
schema. -/
structure TextMessageRec where
  text : String
  deriving DecidableEq

def serializeTextMessage (m : TextMessageRec) : Json :=
  Json.obj [("type", Json.str "text"), ("text", Json.str m.text)]

/-- Construction validates field presence and types only. -/
def parseTextMessage : Json → Option TextMessageRec
  | Json.obj [(k0, Json.str ty), (k1, Json.str t)] =>
    if k0 = "type" ∧ ty = "text" ∧ k1 = "text" then some ⟨t⟩ else none
  | _ => none

/-- Modelled from the spec: the flex-message entity is a pass-through
record: an alt text plus the vendor-defined contents JSON. -/
structure FlexMessageRec where
  altText : String
  contents : Json

def serializeFlexMessage (m : FlexMessageRec) : Json :=
  Json.obj [("type", Json.str "flex"), ("altText", Json.str m.altText),
    ("contents", m.contents)]

def parseFlexMessage : Json → Option FlexMessageRec
  | Json.obj [(k0, Json.str ty), (k1, Json.str a), (k2, c)] =>
    if k0 = "type" ∧ ty = "flex" ∧ k1 = "altText" ∧ k2 = "contents" then
      some ⟨a, c⟩
    else none
  | _ => none

/-- Modelled from the spec: the webhook `Event` entity is a pass-through
record of source user, message and reply token. -/
structure EventRec where
  userId : String
  messageType : String
  messageText : String
  replyToken : String
  deriving DecidableEq

def serializeEvent (e : EventRec) : Json :=
  Json.obj [("type", Json.str "message"),
    ("source", Json.obj [("type", Json.str "user"), ("userId", Json.str e.userId)]),
    ("message", Json.obj [("type", Json.str e.messageType), ("text", Json.str e.messageText)]),
    ("replyToken", Json.str e.replyToken)]

def parseEvent : Json → Option EventRec
  | Json.obj [(k0, Json.str ty),
      (k1, Json.obj [(s0, Json.str sty), (s1, Json.str u)]),
      (k2, Json.obj [(m0, Json.str mt), (m1, Json.str tx)]),
      (k3, Json.str rt)] =>
    if k0 = "type" ∧ ty = "message" ∧ k1 = "source" ∧ s0 = "type" ∧ sty = "user" ∧
        s1 = "userId" ∧ k2 = "message" ∧ m0 = "type" ∧ m1 = "text" ∧
        k3 = "replyToken" then
      some ⟨u, mt, tx, rt⟩
    else none
  | _ => none

/-- Modelled from the spec: `LineAPIConfig` (source not in the snapshot)
is a pass-through record of the two credentials. -/
structure ConfigRec where
  channelAccessToken : String
  channelSecret : String
  deriving DecidableEq

def serializeConfig (c : ConfigRec) : Json :=
  Json.obj [("channelAccessToken", Json.str c.channelAccessToken),
    ("channelSecret", Json.str c.channelSecret)]

def parseConfig : Json → Option ConfigRec
  | Json.obj [(k0, Json.str a), (k1, Json.str sec)] =>
    if k0 = "channelAccessToken" ∧ k1 = "channelSecret" then some ⟨a, sec⟩ else none
  | _ => none

/-- A JSON string value. -/
def isStr : Json → Bool
  | Json.str _ => true
  | _ => false

/-- Vendor text-message schema: an object with `type: "text"` and a
string `text` field. -/
def textMessageValid : Json → Bool
  | Json.obj [(k0, Json.str ty), (k1, t)] =>
    k0 == "type" && ty == "text" && k1 == "text" && isStr t
  | _ => false

/-- Modelled from the spec: the builder behind the library's
`TextMessage` (source not in the snapshot). -/
def buildTextMessage (t : String) : Json := serializeTextMessage ⟨t⟩

inductive FlexLayout where
  | horizontal
  | vertical
  | baseline
  deriving DecidableEq

def FlexLayout.toName : FlexLayout → String
  | .horizontal => "horizontal"
  | .vertical => "vertical"
  | .baseline => "baseline"

mutual
/-- Modelled from the spec: the flex component variants exported by
`line_api` (`FlexText`, `FlexButton`, `FlexImage`, `FlexSeparator`,
`FlexBox`; sources not in the snapshot). -/
inductive FlexComponent where
  | text (text : String)
  | button (label uri : String)
  | image (url : String)
  | separator
  | box (b : FlexBox)

inductive FlexBox where
  | make (layout : FlexLayout) (contents : FlexComponentList)

inductive FlexComponentList where
  | nil
  | cons (c : FlexComponent) (cs : FlexComponentList)
end

mutual
/-- Modelled from the spec: each flex component builder emits the vendor
JSON for its component type. -/
def FlexComponent.toJson : FlexComponent → Json
  | .text t => Json.obj [("type", Json.str "text"), ("text", Json.str t)]
  | .button label uri => Json.obj [("type", Json.str "button"),
      ("action", Json.obj [("type", Json.str "uri"), ("label", Json.str label),
        ("uri", Json.str uri)])]
  | .image url => Json.obj [("type", Json.str "image"), ("url", Json.str url)]
  | .separator => Json.obj [("type", Json.str "separator")]
  | .box b => FlexBox.toJson b

def FlexBox.toJson : FlexBox → Json
  | .make layout cs => Json.obj [("type", Json.str "box"),
      ("layout", Json.str layout.toName),
      ("contents", Json.arr (FlexComponentList.toJsonList cs))]

def FlexComponentList.toJsonList : FlexComponentList → List Json
  | .nil => []
  | .cons c cs => FlexComponent.toJson c :: FlexComponentList.toJsonList cs
end

/-- Modelled from the spec: `FlexBubble` wraps a body box. -/
structure FlexBubble where
  body : FlexBox

def FlexBubble.toJson (b : FlexBubble) : Json :=
  Json.obj [("type", Json.str "bubble"), ("body", b.body.toJson)]

/-- Modelled from the spec: a flex container is a bubble or a carousel
of bubbles (`FlexCarousel`). -/
inductive FlexContainer where
  | bubble (b : FlexBubble)
  | carousel (bs : List FlexBubble)

def FlexContainer.toJson : FlexContainer → Json
  | .bubble b => b.toJson
  | .carousel bs => Json.obj [("type", Json.str "carousel"),
      ("contents", Json.arr (bs.map FlexBubble.toJson))]

/-- Modelled from the spec: `FlexMessage.create`: the flex message
wrapper with alt text and a container. -/
structure FlexMessage where
  altText : String
  contents : FlexContainer

def FlexMessage.toJson (m : FlexMessage) : Json :=
  Json.obj [("type", Json.str "flex"), ("altText", Json.str m.altText),
    ("contents", m.contents.toJson)]

/-- Vendor URI-action schema, as emitted for buttons. -/
def actionValid : Json → Bool
  | Json.obj [(a0, Json.str aty), (a1, lv), (a2, uv)] =>
    a0 == "type" && aty == "uri" && a1 == "label" && isStr lv &&
      a2 == "uri" && isStr uv
  | _ => false

mutual
/-- Vendor flex-component schema: each component object carries its
`type` discriminator and that type's required fields; box layouts are
one of the three vendor layouts and box contents are themselves valid
components. -/
def flexComponentValid : Json → Bool
  | Json.obj [(k0, Json.str ty), (k1, v1)] =>
    k0 == "type" &&
      ((ty == "text" && k1 == "text" && isStr v1) ||
       (ty == "image" && k1 == "url" && isStr v1) ||
       (ty == "button" && k1 == "action" && actionValid v1))
  | Json.obj [(k0, Json.str ty)] => k0 == "type" && ty == "separator"
  | Json.obj [(k0, Json.str ty), (k1, Json.str l), (k2, Json.arr cs)] =>
    k0 == "type" && ty == "box" && k1 == "layout" &&
      (l == "horizontal" || l == "vertical" || l == "baseline") &&
      k2 == "contents" && flexComponentsValid cs
  | _ => false

def flexComponentsValid : List Json → Bool
  | [] => true
  | c :: cs => flexComponentValid c && flexComponentsValid cs
end

/-- Vendor box schema. -/
def flexBoxValid : Json → Bool
  | Json.obj [(k0, Json.str ty), (k1, Json.str l), (k2, Json.arr cs)] =>
    k0 == "type" && ty == "box" && k1 == "layout" &&
      (l == "horizontal" || l == "vertical" || l == "baseline") &&
      k2 == "contents" && flexComponentsValid cs
  | _ => false

/-- Vendor bubble schema: a bubble whose body is a valid box. -/
def flexBubbleValid : Json → Bool
  | Json.obj [(k0, Json.str ty), (k1, b)] =>
    k0 == "type" && ty == "bubble" && k1 == "body" && flexBoxValid b
  | _ => false

/-- Vendor container schema: a carousel of valid bubbles, or a single
valid bubble. -/
def flexContainerValid (j : Json) : Bool :=
  (match j with
   | Json.obj [(k0, Json.str ty), (k1, Json.arr bs)] =>
     k0 == "type" && ty == "carousel" && k1 == "contents" && bs.all flexBubbleValid
   | _ => false) || flexBubbleValid j

/-- Vendor flex-message schema: `type: "flex"`, a string `altText`, and
a valid container. -/
def flexMessageValid : Json → Bool
  | Json.obj [(k0, Json.str ty), (k1, a), (k2, c)] =>
    k0 == "type" && ty == "flex" && k1 == "altText" && isStr a &&
      k2 == "contents" && flexContainerValid c
  | _ => false

/-- A sample parsed message event. -/
def evA : LineMessageEvent := ⟨⟨"u1"⟩, ⟨"text", "hi"⟩, some "tk"⟩

/-! ## Helper lemmas -/

theorem verify_self (secret body : List Nat) :
    verify_webhook_signature secret body (hmacSHA256 secret body) = true :=
  beq_self_eq_true _

theorem dictGet_dictSet_self (st : Store) (u : String) (v : List String) :
    dictGet (dictSet st u v) u = some v := by
  induction st with
  | nil => simp [dictSet, dictGet]
  | cons p rest ih =>
    obtain ⟨k, w⟩ := p
    by_cases h : k = u <;> simp [dictSet, dictGet, h, ih]

theorem dictGet_dictSet_ne (st : Store) (u v' : String) (v : List String) (h : v' ≠ u) :
    dictGet (dictSet st u v) v' = dictGet st v' := by
  induction st with
  | nil => simp [dictSet, dictGet, Ne.symm h]
  | cons p rest ih =>
    obtain ⟨k, w⟩ := p
    by_cases hk : k = u
    · subst hk
      simp [dictSet, dictGet, Ne.symm h]
    · simp [dictSet, dictGet, hk, ih]

set_option maxHeartbeats 1000000 in
/-- The store returned by `process_user_message` is either untouched or
the sender's entry cleared (the `clear` branch). -/
theorem process_store_cases (t u : String) (st : Store) :
    (process_user_message t u st).2 = st ∨
    (process_user_message t u st).2 = dictSet st u [] := by
  simp only [process_user_message]
  split_ifs <;> simp

theorem process_frame (t u v : String) (st : Store) (h : v ≠ u) :
    dictGet (process_user_message t u st).2 v = dictGet st v := by
  rcases process_store_cases t u st with hc | hc
  · rw [hc]
  · rw [hc]
    exact dictGet_dictSet_ne st u v [] h

theorem selectedAt_firstTrue (gs : List Bool) : selectedAt gs (firstTrue gs) := by
  induction gs with
  | nil =>
    exact ⟨Nat.le_refl 0, fun j hj => absurd hj (Nat.not_lt_zero j),
      fun hlt => absurd hlt (Nat.not_lt_zero 0)⟩
  | cons b bs ih =>
    by_cases hb : b = true
    · exact ⟨by simp [firstTrue, hb], fun j hj => absurd hj (by simp [firstTrue, hb]),
        fun _ => by simp [firstTrue, hb]⟩
    · have hb' : b = false := by simpa using hb
      refine ⟨?_, fun j hj => ?_, fun hlt => ?_⟩
      · simpa [firstTrue, hb'] using Nat.succ_le_succ ih.1
      · cases j with
        | zero => simpa using hb'
        | succ k =>
          have hk : k < firstTrue bs := by simpa [firstTrue, hb'] using hj
          simpa using ih.2.1 k hk
      · have hk : firstTrue bs < bs.length := by simpa [firstTrue, hb'] using hlt
        simpa [firstTrue, hb'] using ih.2.2 hk

theorem selectedAt_unique (gs : List Bool) (i j : Nat)
    (hi : selectedAt gs i) (hj : selectedAt gs j) : i = j := by
  by_contra hne
  rcases Nat.lt_or_ge i j with hlt | hge
  · have h1 : gs.getD i false = false := hj.2.1 i hlt
    have h2 : gs.getD i false = true := hi.2.2 (Nat.lt_of_lt_of_le hlt hj.1)
    rw [h1] at h2
    exact Bool.false_ne_true h2
  · have hlt : j < i := Nat.lt_of_le_of_ne hge fun e => hne e.symm
    have h1 : gs.getD j false = false := hi.2.1 j hlt
    have h2 : gs.getD j false = true := hj.2.2 (Nat.lt_of_lt_of_le hlt hi.1)
    rw [h1] at h2
    exact Bool.false_ne_true h2

/-- A successful dispatch passes the callback exactly the event list, in
order. -/
theorem dispatchEvents_trace
    (cb : Store → LineMessageEvent → Except String (Store × List ReplySend))
    (st : Store) (es : List LineMessageEvent) :
    ∀ r, dispatchEvents cb st es = Except.ok r → r.2.1 = es := by
  induction es generalizing st with
  | nil =>
    intro r h
    unfold dispatchEvents at h
    cases h
    rfl
  | cons e es ih =>
    intro r h
    unfold dispatchEvents at h
    split at h
    · simp at h
    · split at h
      · simp at h
      · rename_i st1 rs heq st2 tr rs2 heq2
        cases h
        have htr := ih _ _ heq2
        simp at htr
        simp [htr]

/-- A successful `handle_webhook` run dispatched exactly the payload's
events, counted them, and behaved as the dispatch fold. -/
theorem handle_webhook_ok_trace (secret : List Nat)
    (cb : Store → LineMessageEvent → Except String (Store × List ReplySend))
    (st : Store) (body : List Nat) (osig : Option (List Nat)) (payload : WebhookPayload) :
    ∀ rr, handle_webhook secret cb st body osig payload = Except.ok rr →
      rr.2.1 = payload.events ∧ rr.2.2.2 = ⟨payload.events.length⟩ ∧
        dispatchEvents cb st payload.events = Except.ok (rr.1, rr.2.1, rr.2.2.1) := by
  intro rr h
  cases osig with
  | none => simp [handle_webhook] at h
  | some sig =>
    simp only [handle_webhook] at h
    by_cases hv : verify_webhook_signature secret body sig
    · rw [if_pos hv] at h
      cases hd : dispatchEvents cb st payload.events with
      | error m => rw [hd] at h; simp at h
      | ok q =>
        obtain ⟨st1, tr1, rs1⟩ := q
        rw [hd] at h
        cases h
        exact ⟨dispatchEvents_trace cb st payload.events _ hd, rfl, rfl⟩
    · rw [if_neg hv] at h
      simp at h

/-- The invocation trace is a prefix of the event list: even a failing
run invokes the callback at most once per event occurrence. -/
theorem dispatchEventsTrace_isPrefixOf
    (cb : Store → LineMessageEvent → Except String (Store × List ReplySend))
    (st : Store) (es : List LineMessageEvent) :
    dispatchEventsTrace cb st es <+: es := by
  induction es generalizing st with
  | nil => exact ⟨[], rfl⟩
  | cons e es ih =>
    unfold dispatchEventsTrace
    cases hcb : cb st e with
    | error m => exact ⟨es, rfl⟩
    | ok p =>
      obtain ⟨st1, rs⟩ := p
      obtain ⟨t, ht⟩ := ih st1
      exact ⟨t, by simp [ht]⟩

/-- A successful dispatch invoked the callback on exactly the event
list. -/
theorem dispatchEventsTrace_of_ok
    (cb : Store → LineMessageEvent → Except String (Store × List ReplySend))
    (st : Store) (es : List LineMessageEvent) :
    ∀ r, dispatchEvents cb st es = Except.ok r →
      dispatchEventsTrace cb st es = es := by
  induction es generalizing st with
  | nil => intro r _; rfl
  | cons e es ih =>
    intro r h
    unfold dispatchEvents at h
    split at h
    · simp at h
    · split at h
      · simp at h
      · rename_i st1 rs hcb scr2 st2 tr rs2 heq2
        unfold dispatchEventsTrace
        rw [hcb]
        simp [ih _ _ heq2]

/-- No inbound request invokes the callback more often on an event than
the event occurs in the payload. -/
theorem handleWebhookInvocations_count (secret : List Nat)
    (cb : Store → LineMessageEvent → Except String (Store × List ReplySend))
    (st : Store) (body : List Nat) (osig : Option (List Nat)) (payload : WebhookPayload)
    (e : LineMessageEvent) :
    (handleWebhookInvocations secret cb st body osig payload).count e ≤
      payload.events.count e := by
  cases osig with
  | none => simp [handleWebhookInvocations]
  | some sig =>
    by_cases hv : verify_webhook_signature secret body sig
    · simp only [handleWebhookInvocations, hv, if_true]
      exact ((dispatchEventsTrace_isPrefixOf cb st payload.events).sublist).count_le e
    · simp [handleWebhookInvocations, hv]

/-- A successful `handle_webhook` run invoked the callback on exactly
the payload's events. -/
theorem handleWebhookInvocations_of_ok (secret : List Nat)
    (cb : Store → LineMessageEvent → Except String (Store × List ReplySend))
    (st : Store) (body : List Nat) (osig : Option (List Nat)) (payload : WebhookPayload) :
    ∀ rr, handle_webhook secret cb st body osig payload = Except.ok rr →
      handleWebhookInvocations secret cb st body osig payload = payload.events := by
  intro rr h
  cases osig with
  | none => simp [handle_webhook] at h
  | some sig =>
    simp only [handle_webhook] at h
    by_cases hv : verify_webhook_signature secret body sig
    · rw [if_pos hv] at h
      simp only [handleWebhookInvocations, hv, if_true]
      cases hd : dispatchEvents cb st payload.events with
      | error m => rw [hd] at h; simp at h
      | ok q => exact dispatchEventsTrace_of_ok cb st payload.events q hd
    · rw [if_neg hv] at h
      simp at h

/-- Each webhook message event causes at most one reply send. -/
theorem handle_text_message_replies_le_one (st : Store) (e : LineMessageEvent) :
    (handle_text_message st e).2.length ≤ 1 := by
  simp only [handle_text_message]
  split_ifs <;> simp

mutual
theorem flexComponent_toJson_valid : ∀ c : FlexComponent,
    flexComponentValid c.toJson = true
  | .text t => rfl
  | .button label uri => rfl
  | .image url => rfl
  | .separator => rfl
  | .box (FlexBox.make layout cs) => by
      have ih := flexComponentList_toJsonList_valid cs
      cases layout <;>
        simp [FlexComponent.toJson, FlexBox.toJson, FlexLayout.toName,
          flexComponentValid, ih]

theorem flexComponentList_toJsonList_valid : ∀ cs : FlexComponentList,
    flexComponentsValid (FlexComponentList.toJsonList cs) = true
  | .nil => rfl
  | .cons c cs => by
      simp [FlexComponentList.toJsonList, flexComponentsValid,
        flexComponent_toJson_valid c, flexComponentList_toJsonList_valid cs]
end

theorem flexBox_toJson_valid (b : FlexBox) : flexBoxValid b.toJson = true := by
  obtain ⟨layout, cs⟩ := b
  cases layout <;>
    simp [FlexBox.toJson, FlexLayout.toName, flexBoxValid,
      flexComponentList_toJsonList_valid cs]

theorem flexBubble_toJson_valid (b : FlexBubble) : flexBubbleValid b.toJson = true := by
  simp [FlexBubble.toJson, flexBubbleValid, flexBox_toJson_valid]

theorem flexContainer_toJson_valid (c : FlexContainer) :
    flexContainerValid c.toJson = true := by
  cases c with
  | bubble b =>
    have hb := flexBubble_toJson_valid b
    simp [FlexContainer.toJson, flexContainerValid, hb]
  | carousel bs =>
    simp [FlexContainer.toJson, flexContainerValid, List.all_eq_true, List.mem_map,
      flexBubble_toJson_valid]

theorem flexMessage_toJson_valid (m : FlexMessage) : flexMessageValid m.toJson = true := by
  simp [FlexMessage.toJson, flexMessageValid, isStr, flexContainer_toJson_valid]

/-! ## The claims -/
/-- C1: signature verification accepts a request exactly when the
`X-Line-Signature` value equals HMAC-SHA256 of the raw body under the
shared channel secret: every validly signed body is accepted, and a
tampered body or a mismatched secret (whose MAC differs) is rejected. -/
theorem signature_verification_correct (secret body : List Nat) :
    (∀ sig, verify_webhook_signature secret body sig = true ↔ sig = hmacSHA256 secret body) ∧
    verify_webhook_signature secret body (hmacSHA256 secret body) = true ∧
    (∀ body', hmacSHA256 secret body' ≠ hmacSHA256 secret body →
      verify_webhook_signature secret body' (hmacSHA256 secret body) = false) ∧
    (∀ secret', hmacSHA256 secret' body ≠ hmacSHA256 secret body →
      verify_webhook_signature secret body (hmacSHA256 secret' body) = false) := by
  refine ⟨fun sig => ?_, ?_, fun body' h => ?_, fun secret' h => ?_⟩
  · unfold verify_webhook_signature
    rw [beq_iff_eq]
    exact eq_comm
  · unfold verify_webhook_signature
    exact beq_self_eq_true _
  · unfold verify_webhook_signature
    exact beq_eq_false_iff_ne.mpr h
  · unfold verify_webhook_signature
    exact beq_eq_false_iff_ne.mpr fun e => h e.symm

set_option maxRecDepth 1000000 in
/-- Concrete instance of C1: secret `[107]`, body `[97]`; the valid
signature is accepted, while the signature checked against the tampered
body `[98]` and the signature made with the other secret `[108]` are
rejected. -/
theorem signature_verification_correct_witness :
    verify_webhook_signature [107] [97] (hmacSHA256 [107] [97]) = true ∧
    verify_webhook_signature [107] [98] (hmacSHA256 [107] [97]) = false ∧
    verify_webhook_signature [107] [97] (hmacSHA256 [108] [97]) = false :=
  ⟨(signature_verification_correct [107] [97]).2.1,
   (signature_verification_correct [107] [98]).2.2.1 [97] (by decide),
   (signature_verification_correct [107] [97]).2.2.2 [108] (by decide)⟩


/-- Claim C2 (amended): the full example's webhook endpoint answers 400
for a missing signature header, 400 for an unparsable JSON payload, 400
for a failed signature verification, 500 when a handler raises, and 200
when the request verifies, parses, and every handler succeeds; the
simple example's endpoint answers 400 for a bad or missing signature but
500 — an uncaught parse exception — for an unparsable JSON payload, 500
for handler failures, and 200 on success. -/
theorem webhook_status_codes (secret : List Nat)
    (cb : Store → LineMessageEvent → Except String (Store × List ReplySend))
    (st : Store) (req : WebhookRequest) :
    (req.signature = none → webhook_endpoint_full secret cb st req = 400) ∧
    (∀ sig, req.signature = some sig → req.payload = none →
      webhook_endpoint_full secret cb st req = 400) ∧
    (∀ sig payload, req.signature = some sig → req.payload = some payload →
      (verify_webhook_signature secret req.body sig = false →
        webhook_endpoint_full secret cb st req = 400 ∧
        webhook_endpoint_simple secret cb st req = 400) ∧
      (∀ r, verify_webhook_signature secret req.body sig = true →
        dispatchEvents cb st payload.events = Except.ok r →
        webhook_endpoint_full secret cb st req = 200 ∧
        webhook_endpoint_simple secret cb st req = 200) ∧
      (∀ m, verify_webhook_signature secret req.body sig = true →
        dispatchEvents cb st payload.events = Except.error m →
        webhook_endpoint_full secret cb st req = 500 ∧
        webhook_endpoint_simple secret cb st req = 500)) ∧
    (req.payload = none → webhook_endpoint_simple secret cb st req = 500) ∧
    (req.signature = none → ∀ payload, req.payload = some payload →
      webhook_endpoint_simple secret cb st req = 400) := by
  obtain ⟨b, s, p⟩ := req
  refine ⟨?_, ?_, ?_, ?_, ?_⟩
  · intro hs
    cases hs
    simp [webhook_endpoint_full]
  · intro sig hs hp
    cases hs
    cases hp
    simp [webhook_endpoint_full]
  · intro sig payload hs hp
    cases hs
    cases hp
    refine ⟨fun hv => ?_, fun r hv hd => ?_, fun m hv hd => ?_⟩
    · simp [webhook_endpoint_full, webhook_endpoint_simple, handle_webhook, hv]
    · obtain ⟨st1, tr1, rs1⟩ := r
      simp [webhook_endpoint_full, webhook_endpoint_simple, handle_webhook, hv, hd]
    · simp [webhook_endpoint_full, webhook_endpoint_simple, handle_webhook, hv, hd]
  · intro hp
    cases hp
    simp [webhook_endpoint_simple]
  · intro hs payload hp
    cases hs
    cases hp
    simp [webhook_endpoint_simple, handle_webhook]

/-- Counterexample to claim C2 as stated: the simple example's endpoint
answers a request whose body is not parsable JSON with 500, not 400. -/
theorem unparsable_json_answered_500 :
    webhook_endpoint_simple [107] trivialCb [] ⟨[97], some [0], none⟩ = 500 ∧
    webhook_endpoint_simple [107] trivialCb [] ⟨[97], some [0], none⟩ ≠ 400 :=
  ⟨rfl, by decide⟩

/-- Concrete instance of C2 (amended): a missing signature gives 400 on
the full endpoint, an unparsable payload gives 500 on the simple
endpoint, and a validly signed empty-event request gives 200. -/
theorem webhook_status_codes_witness :
    webhook_endpoint_full [107] trivialCb [] ⟨[97], none, none⟩ = 400 ∧
    webhook_endpoint_simple [107] trivialCb [] ⟨[97], some [0], none⟩ = 500 ∧
    webhook_endpoint_full [107] trivialCb []
      ⟨[97], some (hmacSHA256 [107] [97]), some ⟨[evA]⟩⟩ = 200 :=
  ⟨(webhook_status_codes [107] trivialCb [] ⟨[97], none, none⟩).1 rfl,
   (webhook_status_codes [107] trivialCb [] ⟨[97], some [0], none⟩).2.2.2.1 rfl,
   (((webhook_status_codes [107] trivialCb []
        ⟨[97], some (hmacSHA256 [107] [97]), some ⟨[evA]⟩⟩).2.2.1
      (hmacSHA256 [107] [97]) ⟨[evA]⟩ rfl rfl).2.1 ([], [evA], [])
      (verify_self [107] [97]) (by simp [dispatchEvents, trivialCb])).1⟩

/-- Claim C3: when the signature verifies and the payload parses,
`handle_webhook` passes the registered callback exactly the parsed
events, in order — the dispatch trace equals the payload's event list,
the reported count is its length, and the run is the callback fold. -/
theorem handle_webhook_dispatches_each_event (secret : List Nat)
    (cb : Store → LineMessageEvent → Except String (Store × List ReplySend))
    (st : Store) (body sig : List Nat) (payload : WebhookPayload) :
    (∀ st' tr rs rsp,
      handle_webhook secret cb st body (some sig) payload = Except.ok (st', tr, rs, rsp) →
        tr = payload.events ∧ rsp.processed_events = payload.events.length ∧
        dispatchEvents cb st payload.events = Except.ok (st', tr, rs)) ∧
    (∀ r, verify_webhook_signature secret body sig = true →
      dispatchEvents cb st payload.events = Except.ok r →
      handle_webhook secret cb st body (some sig) payload =
        Except.ok (r.1, r.2.1, r.2.2, ⟨payload.events.length⟩)) := by
  constructor
  · intro st' tr rs rsp h
    have h3 := handle_webhook_ok_trace secret cb st body (some sig) payload (st', tr, rs, rsp) h
    have h4 : rsp = ⟨payload.events.length⟩ := h3.2.1
    exact ⟨h3.1, by rw [h4], h3.2.2⟩
  · intro r hv hd
    obtain ⟨st1, tr1, rs1⟩ := r
    simp only [handle_webhook, hv, if_true]
    rw [hd]

/-- Concrete instance of C3: a validly signed one-event request
dispatches that event to the callback. -/
theorem handle_webhook_dispatches_each_event_witness :
    ([evA] : List LineMessageEvent) = [evA] ∧
    handle_webhook [107] trivialCb [] [97] (some (hmacSHA256 [107] [97])) ⟨[evA]⟩ =
      Except.ok ([], [evA], [], ⟨1⟩) :=
  ⟨((handle_webhook_dispatches_each_event [107] trivialCb [] [97]
      (hmacSHA256 [107] [97]) ⟨[evA]⟩).1 [] [evA] [] ⟨1⟩
      (by simp [handle_webhook, verify_self, dispatchEvents, trivialCb])).1,
   (handle_webhook_dispatches_each_event [107] trivialCb [] [97]
      (hmacSHA256 [107] [97]) ⟨[evA]⟩).2 ([], [evA], [])
      (verify_self [107] [97])
      (by simp [dispatchEvents, trivialCb])⟩

/-- Counterexample to claim C4 as stated: the example's `user_messages`
store survives the request/response cycle — handling a `hello` message
changes the reply a later `history` request from the same user
receives, so requests are not independent. -/
theorem shared_state_observable :
    (handle_text_message [] ⟨⟨"u1"⟩, ⟨"text", "hello"⟩, some "tk"⟩).1 = [("u1", ["hello"])] ∧
    (handle_text_message [("u1", ["hello"])] ⟨⟨"u1"⟩, ⟨"text", "history"⟩, some "tk"⟩).2 ≠
      (handle_text_message [] ⟨⟨"u1"⟩, ⟨"text", "history"⟩, some "tk"⟩).2 := by
  decide

/-- Claim C4 (amended): handling one webhook message event does mutate
the shared `user_messages` store, but only the sender's entry: every
other user's stored messages are left unchanged. -/
theorem handle_text_message_frame (st : Store) (e : LineMessageEvent) (v : String)
    (h : v ≠ e.source.userId) :
    dictGet (handle_text_message st e).1 v = dictGet st v := by
  by_cases ht : e.message.type = "text"
  · simp only [handle_text_message, ht, if_true]
    rw [process_frame _ _ v _ h, dictGet_dictSet_ne _ _ v _ h]
    by_cases hc : dictContains st e.source.userId
    · simp [hc]
    · simp [hc, dictGet_dictSet_ne st e.source.userId v [] h]
  · simp [handle_text_message, ht]

/-- Concrete instance of C4 (amended): a message from `u1` leaves `u2`'s
entry untouched. -/
theorem handle_text_message_frame_witness :
    dictGet (handle_text_message [("u2", ["x"])] ⟨⟨"u1"⟩, ⟨"text", "hello"⟩, some "tk"⟩).1 "u2" =
      dictGet [("u2", ["x"])] "u2" :=
  handle_text_message_frame [("u2", ["x"])] ⟨⟨"u1"⟩, ⟨"text", "hello"⟩, some "tk"⟩ "u2"
    (by decide)

/-- Claim C5: every message builder the library offers produces
vendor-schema-conformant JSON: the text-message builder and each flex
variant (text, button, image, separator, box, bubble, carousel, and the
flex message wrapper). -/
theorem message_builders_valid :
    (∀ t : String, textMessageValid (buildTextMessage t) = true) ∧
    (∀ c : FlexComponent, flexComponentValid c.toJson = true) ∧
    (∀ b : FlexBox, flexBoxValid b.toJson = true) ∧
    (∀ b : FlexBubble, flexBubbleValid b.toJson = true) ∧
    (∀ c : FlexContainer, flexContainerValid c.toJson = true) ∧
    (∀ m : FlexMessage, flexMessageValid m.toJson = true) :=
  ⟨fun _ => rfl, flexComponent_toJson_valid, flexBox_toJson_valid,
   flexBubble_toJson_valid, flexContainer_toJson_valid, flexMessage_toJson_valid⟩

/-- Claim C6: the entity records are pass-through: parsing a vendor JSON
payload into a record validates shape only, and serializing the record
reproduces the original JSON unchanged — for messages (text and flex),
events, and the config. -/
theorem entity_roundtrip :
    (∀ j m, parseTextMessage j = some m → serializeTextMessage m = j) ∧
    (∀ j m, parseFlexMessage j = some m → serializeFlexMessage m = j) ∧
    (∀ j e, parseEvent j = some e → serializeEvent e = j) ∧
    (∀ j c, parseConfig j = some c → serializeConfig c = j) := by
  refine ⟨fun j m h => ?_, fun j m h => ?_, fun j e h => ?_, fun j c h => ?_⟩
  · unfold parseTextMessage at h
    split at h
    · split at h
      · rename_i hP
        obtain ⟨rfl, rfl, rfl⟩ := hP
        cases h
        rfl
      · simp at h
    · simp at h
  · unfold parseFlexMessage at h
    split at h
    · split at h
      · rename_i hP
        obtain ⟨rfl, rfl, rfl, rfl⟩ := hP
        cases h
        rfl
      · simp at h
    · simp at h
  · unfold parseEvent at h
    split at h
    · split at h
      · rename_i hP
        obtain ⟨rfl, rfl, rfl, rfl, rfl, rfl, rfl, rfl, rfl, rfl⟩ := hP
        cases h
        rfl
      · simp at h
    · simp at h
  · unfold parseConfig at h
    split at h
    · split at h
      · rename_i hP
        obtain ⟨rfl, rfl⟩ := hP
        cases h
        rfl
      · simp at h
    · simp at h

/-- Concrete instance of C6: round trips on sample payloads for all four
record kinds. -/
theorem entity_roundtrip_witness :
    serializeTextMessage ⟨"hi"⟩ =
      Json.obj [("type", Json.str "text"), ("text", Json.str "hi")] ∧
    serializeFlexMessage ⟨"alt", Json.null⟩ =
      Json.obj [("type", Json.str "flex"), ("altText", Json.str "alt"),
        ("contents", Json.null)] ∧
    serializeEvent ⟨"u1", "text", "hello", "tk"⟩ =
      Json.obj [("type", Json.str "message"),
        ("source", Json.obj [("type", Json.str "user"), ("userId", Json.str "u1")]),
        ("message", Json.obj [("type", Json.str "text"), ("text", Json.str "hello")]),
        ("replyToken", Json.str "tk")] ∧
    serializeConfig ⟨"tok", "sec"⟩ =
      Json.obj [("channelAccessToken", Json.str "tok"), ("channelSecret", Json.str "sec")] :=
  ⟨entity_roundtrip.1 _ ⟨"hi"⟩ rfl,
   entity_roundtrip.2.1 _ ⟨"alt", Json.null⟩ rfl,
   entity_roundtrip.2.2.1 _ ⟨"u1", "text", "hello", "tk"⟩ rfl,
   entity_roundtrip.2.2.2 _ ⟨"tok", "sec"⟩ rfl⟩

/-- Claim C7: no operation is retried: on every inbound request —
succeeding or failing — the callback is invoked at most once per event
occurrence in the payload (and on a successful run exactly once per
event, in order); each message event causes at most one outgoing reply
send; and an outgoing push makes exactly one send attempt, surfacing a
failure as an HTTP 500 error rather than repeating the send. -/
theorem no_retry (secret : List Nat)
    (cb : Store → LineMessageEvent → Except String (Store × List ReplySend))
    (st : Store) (body : List Nat) (osig : Option (List Nat)) (payload : WebhookPayload) :
    (∀ e, (handleWebhookInvocations secret cb st body osig payload).count e ≤
      payload.events.count e) ∧
    (∀ st' tr rs rsp,
      handle_webhook secret cb st body osig payload = Except.ok (st', tr, rs, rsp) →
        handleWebhookInvocations secret cb st body osig payload = payload.events ∧
        ∀ e, tr.count e = payload.events.count e) ∧
    (∀ e, (handle_text_message st e).2.length ≤ 1) ∧
    (∀ pushOutcome user_id message,
      ((send_push_message pushOutcome user_id message).2).length = 1) ∧
    (∀ err user_id message,
      (send_push_message (Except.error err) user_id message).1 =
        Except.error (500, err)) := by
  refine ⟨fun e => handleWebhookInvocations_count secret cb st body osig payload e,
    fun st' tr rs rsp h => ⟨?_, fun e => ?_⟩,
    fun e => handle_text_message_replies_le_one st e,
    fun pushOutcome user_id message => rfl,
    fun err user_id message => rfl⟩
  · exact handleWebhookInvocations_of_ok secret cb st body osig payload _ h
  · have h1 : tr = payload.events :=
      (handle_webhook_ok_trace secret cb st body osig payload (st', tr, rs, rsp) h).1
    rw [h1]

/-- Concrete instance of C7: a validly signed one-event run invokes the
handler once on that event, a message event sends at most one reply, and
a failing push makes one attempt and surfaces 500. -/
theorem no_retry_witness :
    (handleWebhookInvocations [107] trivialCb [] [97]
        (some (hmacSHA256 [107] [97])) ⟨[evA]⟩).count evA ≤
      ([evA] : List LineMessageEvent).count evA ∧
    handleWebhookInvocations [107] trivialCb [] [97]
        (some (hmacSHA256 [107] [97])) ⟨[evA]⟩ = [evA] ∧
    (handle_text_message [] evA).2.length ≤ 1 ∧
    ((send_push_message (Except.error "boom") "u1" "hi").2).length = 1 ∧
    (send_push_message (Except.error "boom") "u1" "hi").1 = Except.error (500, "boom") :=
  ⟨(no_retry [107] trivialCb [] [97] (some (hmacSHA256 [107] [97])) ⟨[evA]⟩).1 evA,
   ((no_retry [107] trivialCb [] [97] (some (hmacSHA256 [107] [97])) ⟨[evA]⟩).2.1
      [] [evA] [] ⟨1⟩
      (by simp [handle_webhook, verify_self, dispatchEvents, trivialCb])).1,
   (no_retry [107] trivialCb [] [97] none ⟨[]⟩).2.2.1 evA,
   (no_retry [107] trivialCb [] [97] none ⟨[]⟩).2.2.2.1 (Except.error "boom") "u1" "hi",
   (no_retry [107] trivialCb [] [97] none ⟨[]⟩).2.2.2.2 "boom" "u1" "hi"⟩

/-- Claim C8: `process_user_message` is total — on every text, user and
store it returns a reply and a store — and every input selects exactly
one branch of its if/elif chain: the branch whose guard is the first to
hold, or the default branch when no guard holds. -/
theorem process_user_message_total (t u : String) (st : Store) :
    (∃ r st', process_user_message t u st = (r, st')) ∧
    ∃! i, selectedAt (processGuards t) i :=
  ⟨⟨(process_user_message t u st).1, (process_user_message t u st).2, rfl⟩,
   ⟨firstTrue (processGuards t), selectedAt_firstTrue _,
    fun y hy => selectedAt_unique _ y _ hy (selectedAt_firstTrue _)⟩⟩

/-- Claim C9: on a `history` command, a user with a non-empty stored
list gets the last at-most-5 messages, in storage order, each on its own
line prefixed with a bullet; a user with no stored messages gets the
no-history reply; the store is unchanged. -/
theorem history_command_spec (t u : String) (st : Store)
    (h : pyStrip (pyLower t) = "history") :
    (∀ l, dictGet st u = some l → l ≠ [] →
      (process_user_message t u st).1 =
        "📝 Your recent messages:\n" ++
          String.intercalate "\n" ((lastN 5 l).map (fun m => "• " ++ m)) ∧
      (lastN 5 l).length ≤ 5 ∧ lastN 5 l <:+ l) ∧
    ((dictGet st u = none ∨ dictGet st u = some []) →
      (process_user_message t u st).1 = "📝 No message history found.") ∧
    (process_user_message t u st).2 = st := by
  refine ⟨fun l hl hne => ?_, fun hcase => ?_, ?_⟩
  · have hc : dictContains st u = true := by simp [dictContains, hl]
    have hd : dictGetD st u = l := by simp [dictGetD, hl]
    refine ⟨?_, ?_, List.drop_suffix _ _⟩
    · simp +decide [process_user_message, h, hc, hd, hne]
    · simp [lastN]
      omega
  · rcases hcase with hc | hc
    · have h1 : dictContains st u = false := by simp [dictContains, hc]
      simp +decide [process_user_message, h, h1]
    · have h1 : dictContains st u = true := by simp [dictContains, hc]
      have h2 : dictGetD st u = [] := by simp [dictGetD, hc]
      simp +decide [process_user_message, h, h1, h2]
  · simp +decide [process_user_message, h]

/-- Concrete instance of C9: a two-message history is echoed in storage
order with bullets; a user without history gets the no-history reply. -/
theorem history_command_spec_witness :
    pyStrip (pyLower " History ") = "history" ∧
    (process_user_message " History " "u1" [("u1", ["a", "b"])]).1 =
      "📝 Your recent messages:\n" ++
        String.intercalate "\n" ((lastN 5 ["a", "b"]).map (fun m => "• " ++ m)) ∧
    (process_user_message "history" "u2" [("u1", ["a", "b"])]).1 =
      "📝 No message history found." :=
  ⟨by decide,
   ((history_command_spec " History " "u1" [("u1", ["a", "b"])] (by decide)).1
      ["a", "b"] (by decide) (by decide)).1,
   (history_command_spec "history" "u2" [("u1", ["a", "b"])] (by decide)).2.1
     (Or.inl (by decide))⟩

/-- Counterexample to claim C10 as stated: clearing for a user with no
store entry leaves the dict without that key — it is not mapped to the
empty list. -/
theorem clear_absent_key_unmapped :
    (process_user_message "clear" "u1" ([] : Store)).1 = "🗑️ Message history cleared!" ∧
    (process_user_message "clear" "u1" ([] : Store)).2 = [] ∧
    dictGet (process_user_message "clear" "u1" ([] : Store)).2 "u1" ≠ some [] := by
  decide

/-- Claim C10 (amended): on a `clear` command the reply is the cleared
message; when the user's key is present its entry becomes the empty
list, when absent the store is unchanged (the key stays unmapped); every
other user's entry is untouched. -/
theorem clear_command_spec (t u : String) (st : Store)
    (h : pyStrip (pyLower t) = "clear") :
    (process_user_message t u st).1 = "🗑️ Message history cleared!" ∧
    (dictContains st u = true → dictGet (process_user_message t u st).2 u = some []) ∧
    (dictContains st u = false → (process_user_message t u st).2 = st) ∧
    (∀ v, v ≠ u → dictGet (process_user_message t u st).2 v = dictGet st v) := by
  refine ⟨?_, ?_, ?_, fun v hv => process_frame t u v st hv⟩
  · simp +decide [process_user_message, h]
  · intro hc
    simp +decide [process_user_message, h, hc]
    exact dictGet_dictSet_self st u []
  · intro hc
    simp +decide [process_user_message, h, hc]

/-- Concrete instance of C10 (amended): clearing `u1` empties its entry
and leaves `u2`'s entry as it was. -/
theorem clear_command_spec_witness :
    (process_user_message "clear" "u1" [("u1", ["a"]), ("u2", ["b"])]).1 =
      "🗑️ Message history cleared!" ∧
    dictGet (process_user_message "clear" "u1" [("u1", ["a"]), ("u2", ["b"])]).2 "u1" =
      some [] ∧
    dictGet (process_user_message "clear" "u1" [("u1", ["a"]), ("u2", ["b"])]).2 "u2" =
      dictGet [("u1", ["a"]), ("u2", ["b"])] "u2" :=
  ⟨(clear_command_spec "clear" "u1" [("u1", ["a"]), ("u2", ["b"])] (by decide)).1,
   (clear_command_spec "clear" "u1" [("u1", ["a"]), ("u2", ["b"])] (by decide)).2.1
     (by decide),
   (clear_command_spec "clear" "u1" [("u1", ["a"]), ("u2", ["b"])] (by decide)).2.2.2 "u2"
     (by decide)⟩
